import Mathlib

/-!
# Verification of the mobile-price feature pipeline

A shallow embedding, in Lean 4, of the feature-engineering and prediction
pipeline of the `ml_mobile_analysis` repository
(`src/pipelines/training_pipeline.py`, `src/pipelines/prediction_pipeline.py`,
`src/application.py`), together with proofs of the behavioural properties
stated in its specification.

Conventions of the embedding:
* Python strings are modelled as `List Char`; `str.lower` is modelled
  character-wise over ASCII (every processor-table key is ASCII).
* Python floats are modelled as `ℚ`; the decimal literals of the pipeline
  are exact, and parsed numerals are built with `mkRat` so that they are
  kernel-computable.
* `pandas.to_numeric(..., errors='coerce')` / NaN ("not available")
  markers are modelled with `Option ℚ` (`none` is the marker).
* Raised exceptions are modelled with `Except`.
* The internals of the external `sklearn` objects (`StandardScaler`,
  `RandomForestRegressor`) are modelled from their documented behaviour:
  the scaler by its per-column mean/scale statistics, the regressor by a
  record of its hyperparameters and fitting data, with its `predict`
  left as a parameter of the embedding.
-/

namespace MobilePrice

/-- ASCII lowercase of one character, the restriction of Python's
`str.lower` to the ASCII range (every processor-table key is ASCII). -/
def pyLowerChar (c : Char) : Char :=
  if 'A' ≤ c ∧ c ≤ 'Z' then Char.ofNat (c.toNat + 32) else c

/-- Character-wise lowercase of a string, modelling `s.lower()`. -/
def pyLower (s : List Char) : List Char :=
  s.map pyLowerChar

/-- `containsSub needle hay` models Python's substring test
`needle in hay`: some contiguous run of `hay` equals `needle`. -/
def containsSub (needle hay : List Char) : Bool :=
  (List.range (hay.length + 1)).any fun i => needle.isPrefixOf (hay.drop i)

/-- The processor-name → GHz table of
`training_pipeline.get_processor_speed`, in its Python definition
(= dict insertion) order. -/
def processorSpeedsTraining : List (String × ℚ) :=
  [ ("A17 Pro", 3.78),
    ("A17 Bionic", 3.78),
    ("A16 Bionic", 3.46),
    ("A15 Bionic", 3.23),
    ("A14 Bionic", 3.1),
    ("A13 Bionic", 2.65),
    ("A12 Bionic", 2.5),
    ("A11 Bionic", 2.4),
    ("Snapdragon 8 Gen 3", 3.3),
    ("Snapdragon 8 Gen 2", 3.2),
    ("Snapdragon 8+ Gen 1", 3.2),
    ("Snapdragon 8 Gen 1", 3.0),
    ("Snapdragon 7+ Gen 2", 2.91),
    ("Snapdragon 7 Gen 1", 2.4),
    ("MediaTek Dimensity 9300", 3.25),
    ("MediaTek Dimensity 9200", 3.05),
    ("MediaTek Dimensity 9000", 3.05),
    ("MediaTek Dimensity 8300", 3.35),
    ("MediaTek Dimensity 8200", 3.1),
    ("Exynos 2400", 3.2),
    ("Exynos 2200", 2.8),
    ("Exynos 1380", 2.4),
    ("Google Tensor G3", 2.91),
    ("Google Tensor G2", 2.85),
    ("Google Tensor", 2.8) ]

/-- The processor-name → GHz table of
`prediction_pipeline.get_processor_speed`, in its Python definition
(= dict insertion) order. -/
def processorSpeedsPrediction : List (String × ℚ) :=
  [ ("A17 Pro", 3.78),
    ("A17 Bionic", 3.78),
    ("A16 Bionic", 3.46),
    ("A15 Bionic", 3.23),
    ("A14 Bionic", 3.1),
    ("A13 Bionic", 2.65),
    ("A12 Bionic", 2.5),
    ("A11 Bionic", 2.4),
    ("Snapdragon 8 Gen 3", 3.3),
    ("Snapdragon 8 Gen 2", 3.2),
    ("Snapdragon 8+ Gen 1", 3.2),
    ("Snapdragon 8 Gen 1", 3.0),
    ("Snapdragon 7+ Gen 2", 2.91),
    ("Snapdragon 7 Gen 1", 2.4),
    ("MediaTek Dimensity 9300", 3.25),
    ("MediaTek Dimensity 9200", 3.05),
    ("MediaTek Dimensity 9000", 3.05),
    ("MediaTek Dimensity 8300", 3.35),
    ("MediaTek Dimensity 8200", 3.1),
    ("Exynos 2400", 3.2),
    ("Exynos 2200", 2.8),
    ("Exynos 1380", 2.4),
    ("Google Tensor G3", 2.91),
    ("Google Tensor G2", 2.85),
    ("Google Tensor", 2.8) ]

/-- A copy of the same table whose GHz values are entered with `mkRat`
(`3.78` as `mkRat 378 100`), so that the kernel can compute with them;
`processorSpeeds_kernel_eq` identifies it with the transcribed table. -/
def processorSpeedsKernel : List (String × ℚ) :=
  [ ("A17 Pro", mkRat 378 100),
    ("A17 Bionic", mkRat 378 100),
    ("A16 Bionic", mkRat 346 100),
    ("A15 Bionic", mkRat 323 100),
    ("A14 Bionic", mkRat 31 10),
    ("A13 Bionic", mkRat 265 100),
    ("A12 Bionic", mkRat 25 10),
    ("A11 Bionic", mkRat 24 10),
    ("Snapdragon 8 Gen 3", mkRat 33 10),
    ("Snapdragon 8 Gen 2", mkRat 32 10),
    ("Snapdragon 8+ Gen 1", mkRat 32 10),
    ("Snapdragon 8 Gen 1", mkRat 3 1),
    ("Snapdragon 7+ Gen 2", mkRat 291 100),
    ("Snapdragon 7 Gen 1", mkRat 24 10),
    ("MediaTek Dimensity 9300", mkRat 325 100),
    ("MediaTek Dimensity 9200", mkRat 305 100),
    ("MediaTek Dimensity 9000", mkRat 305 100),
    ("MediaTek Dimensity 8300", mkRat 335 100),
    ("MediaTek Dimensity 8200", mkRat 31 10),
    ("Exynos 2400", mkRat 32 10),
    ("Exynos 2200", mkRat 28 10),
    ("Exynos 1380", mkRat 24 10),
    ("Google Tensor G3", mkRat 291 100),
    ("Google Tensor G2", mkRat 285 100),
    ("Google Tensor", mkRat 28 10) ]

/-- The `for key, value in processor_speeds.items(): if key.lower() in
processor_name.lower(): return value` loop, followed by `return 2.0`. -/
def resolveGo (table : List (String × ℚ)) (nameLower : List Char) : ℚ :=
  match table with
  | [] => 2.0
  | (k, v) :: rest =>
      if containsSub (pyLower k.toList) nameLower then v
      else resolveGo rest nameLower

/-- `training_pipeline.get_processor_speed`. -/
def getProcessorSpeedTraining (processorName : String) : ℚ :=
  resolveGo processorSpeedsTraining (pyLower processorName.toList)

/-- `prediction_pipeline.get_processor_speed`. -/
def getProcessorSpeedPrediction (processorName : String) : ℚ :=
  resolveGo processorSpeedsPrediction (pyLower processorName.toList)

/-- Spec-side resolver, phrased as the specification words it:
the GHz value of the *first* table entry whose key is a case-insensitive
substring of the input, and the fixed default `2.0` when no entry
matches. Used only to compare against the code-side resolver. -/
def resolveSpecFirstMatch (table : List (String × ℚ)) (name : String) : ℚ :=
  match table.find? (fun kv => containsSub (pyLower kv.1.toList) (pyLower name.toList)) with
  | some kv => kv.2
  | none => 2.0

/-- Worker of `replaceList`: the fuel starts at the length of the list
and decreases by one each step, while each step consumes at least one
character, so the `0` case is never reached from `replaceList`. -/
def replaceListAux (old new : List Char) : ℕ → List Char → List Char
  | 0, l => l
  | _ + 1, [] => []
  | fuel + 1, c :: rest =>
      if ¬ old.isEmpty ∧ old.isPrefixOf (c :: rest) then
        new ++ replaceListAux old new fuel ((c :: rest).drop old.length)
      else c :: replaceListAux old new fuel rest

/-- Python `str.replace(old, new)` on character lists: left-to-right,
non-overlapping replacement of every occurrence of `old` (the guard on
`old` being non-empty is vacuous in the pipeline, whose `old` arguments
are the non-empty tokens `' ' + unit`, `unit` and `'INR'`). -/
def replaceList (old new s : List Char) : List Char :=
  replaceListAux old new s.length s

/-- The whitespace class `\s` of Python regexes (also the characters
`float` strips from the ends of its argument). -/
def isPySpace (c : Char) : Bool :=
  c = ' ' ∨ c = '\t' ∨ c = '\n' ∨ c = '\r' ∨ c = '\x0b' ∨ c = '\x0c'

/-- Value of a digit string, most significant digit first. -/
def natOfDigits (ds : List Char) : ℕ :=
  ds.foldl (fun a c => a * 10 + (c.toNat - 48)) 0

/-- Body of the numeral parser, after surrounding whitespace and an
optional sign have been removed: digits, optionally followed by a point
and further digits, with at least one digit in total (`"2."` and `".5"`
are numerals, `"."` and `""` are not). The value is assembled with
`mkRat` and is the exact decimal value of the numeral. -/
def parseFloatCore (neg : Bool) (u : List Char) : Option ℚ :=
  let intPart := u.takeWhile Char.isDigit
  let rest := u.dropWhile Char.isDigit
  let sgn : ℤ := if neg then -1 else 1
  match rest with
  | [] =>
      if intPart.isEmpty then none
      else some (mkRat (sgn * natOfDigits intPart) 1)
  | '.' :: frac =>
      if frac.all Char.isDigit ∧ ¬(intPart.isEmpty ∧ frac.isEmpty) then
        some (mkRat (sgn * (natOfDigits intPart * 10 ^ frac.length + natOfDigits frac))
          (10 ^ frac.length))
      else none
  | _ => none

/-- Model of `float(s)` / `pandas.to_numeric(s, errors='coerce')` on one
cell, for plain decimal numerals (optional sign, digits, at most one
point, surrounding whitespace ignored); `none` models the NaN marker
produced by a failed coercion. -/
def parseFloat (s : List Char) : Option ℚ :=
  let t := ((s.dropWhile isPySpace).reverse.dropWhile isPySpace).reverse
  match t with
  | '-' :: u => parseFloatCore true u
  | '+' :: u => parseFloatCore false u
  | u => parseFloatCore false u

/-- `training_pipeline.clean_numeric_column`, applied cell-wise: when
`unit` is non-empty, `s.replace(' ' + unit, unit).replace(unit, '')`;
then all commas are removed; then numeric coercion, with `none` as the
NaN ("not available") marker. -/
def clean_numeric_column (s : List Char) (unit : List Char) : Option ℚ :=
  let s1 :=
    if unit.isEmpty then s
    else replaceList unit [] (replaceList (' ' :: unit) unit s)
  parseFloat (s1.filter (fun c => c ≠ ','))

/-- The character class of the regex `[â‚¹,\s]` in
`training_pipeline.clean_price`: the three characters U+00E2, U+201A,
U+00B9 (a mojibake rendering of the UTF-8 bytes of the rupee sign), the
comma, and whitespace. The class does not contain the rupee sign
U+20B9 itself. -/
def priceStripChar (c : Char) : Bool :=
  c = 'â' ∨ c = '‚' ∨ c = '¹' ∨ c = ',' ∨ isPySpace c

/-- `training_pipeline.clean_price`, applied cell-wise: strips the
characters of the regex class `[â‚¹,\s]`, then removes the literal
substring `INR`, then numeric coercion with `none` as the NaN marker. -/
def clean_price (s : List Char) : Option ℚ :=
  parseFloat (replaceList "INR".toList [] (s.filter (fun c => ¬ priceStripChar c)))

/-- Decimal digits of the fraction `r / d` (with `r < d`), most
significant first, stopping at a zero remainder or after `fuel` digits
(Python prints at most 17 significant digits; every value stored by the
pipeline has a short exact expansion). -/
def natFracDigits : ℕ → ℕ → ℕ → List Char
  | 0, _, _ => []
  | _ + 1, 0, _ => []
  | fuel + 1, r, d => Char.ofNat (48 + r * 10 / d) :: natFracDigits fuel (r * 10 % d) d

/-- Model of Python `str()` on a float: optional minus sign, integer
part, a point, and the fractional digits, with a single trailing `0`
when the expansion is empty (`str(2.0) = "2.0"`). -/
def qRepr (q : ℚ) : List Char :=
  let n := q.num.natAbs
  let d := q.den
  let f := natFracDigits 17 (n % d) d
  let body := (Nat.repr (n / d)).toList ++ '.' :: (if f.isEmpty then ['0'] else f)
  if q.num < 0 then '-' :: body else body

/-- A Python value occurring in the prediction input list: the JSON
layer delivers numbers and the free-text processor name. -/
inductive PyVal where
  | int (i : ℤ) : PyVal
  | float (q : ℚ) : PyVal
  | str (s : List Char) : PyVal
deriving DecidableEq

/-- `str()` of one element, as applied by `np.array` when it converts a
mixed Python list to a unicode (`<U n`) array. -/
def pyStrOf : PyVal → List Char
  | .int i => i.repr.toList
  | .float q => qRepr q
  | .str s => s

/-- The elements of `np.array(input_data)` for a mixed input list: each
element stored as its `str()` form. -/
def inputStrings (input : List PyVal) : List (List Char) :=
  input.map pyStrOf

/-- The itemsize (in characters) of the `<U n` dtype `np.array` chooses
for a mixed input list: the longest `str()` form among the elements. -/
def inputWidth (input : List PyVal) : ℕ :=
  ((inputStrings input).map List.length).foldr max 0

/-- The GHz speed `make_prediction` resolves: `get_processor_speed`
applied to `input_data[4]` as read back from the string array. -/
def resolvedSpeed (input : List PyVal) : ℚ :=
  resolveGo processorSpeedsPrediction (pyLower ((inputStrings input).getD 4 []))

/-- The string actually stored by `input_data[4] = processor_speed`:
`str()` of the resolved speed, truncated by numpy to the array's
itemsize. -/
def storedSpeed (input : List PyVal) : List Char :=
  (qRepr (resolvedSpeed input)).take (inputWidth input)

/-- Per-column state of `sklearn.preprocessing.StandardScaler` after
`fit`: the column means and the column scales. -/
structure ScalerState where
  means : List ℚ
  scales : List ℚ
deriving DecidableEq

/-- Column `j` of a row-major matrix. -/
def columnOf (X : List (List ℚ)) (j : ℕ) : List ℚ :=
  X.map (fun r => r.getD j 0)

/-- Mean of a column (`0` on the empty column, as a convention). -/
def colMean (xs : List ℚ) : ℚ :=
  xs.sum / xs.length

/-- Biased variance of a column, as `StandardScaler` computes it. -/
def colVar (xs : List ℚ) : ℚ :=
  (xs.map (fun x => (x - colMean xs) ^ 2)).sum / xs.length

/-- A computable rational stand-in for the floating-point square root
used inside `StandardScaler` (exact to `10 ^ -6`); the theorems below
never depend on its values, only on the two pipeline paths using the
same function. -/
def sqrtQ (q : ℚ) : ℚ :=
  if q.num ≤ 0 then 0 else mkRat (Nat.sqrt (q.num.natAbs * 10 ^ 12 / q.den)) (10 ^ 6)

/-- The scale of a column: the standard deviation, with zero replaced by
`1` (`sklearn`'s `_handle_zeros_in_scale`). -/
def colScale (xs : List ℚ) : ℚ :=
  let s := sqrtQ (colVar xs)
  if s = 0 then 1 else s

/-- Number of feature columns of a row-major matrix. -/
def nCols (X : List (List ℚ)) : ℕ :=
  (X.headD []).length

/-- `StandardScaler().fit(X)`: record per-column mean and scale. -/
def scalerFit (X : List (List ℚ)) : ScalerState :=
  { means := (List.range (nCols X)).map fun j => colMean (columnOf X j),
    scales := (List.range (nCols X)).map fun j => colScale (columnOf X j) }

/-- `scaler.transform` on a single row: per column, subtract the stored
mean and divide by the stored scale. -/
def scalerTransformRow (st : ScalerState) (r : List ℚ) : List ℚ :=
  (r.zip (st.means.zip st.scales)).map fun p => (p.1 - p.2.1) / p.2.2

/-- `scaler.transform` on a matrix: row-wise. -/
def scalerTransform (st : ScalerState) (X : List (List ℚ)) : List (List ℚ) :=
  X.map (scalerTransformRow st)

/-- `scaler.fit_transform(X)`: the training-time scaled matrix, written
out directly (each entry centred by its column's mean and divided by its
column's scale). -/
def scalerFitTransform (X : List (List ℚ)) : List (List ℚ) :=
  X.map fun r =>
    (r.zip (((List.range (nCols X)).map fun j => colMean (columnOf X j)).zip
      ((List.range (nCols X)).map fun j => colScale (columnOf X j)))).map
      fun p => (p.1 - p.2.1) / p.2.2

/-- One raw dataset row, restricted to the columns the training pipeline
reads: the six unit-suffixed text fields, the processor name, the
already-numeric launch year (possibly missing), and the India price
text. -/
structure RawRow where
  mobileWeight : List Char
  ram : List Char
  frontCamera : List Char
  backCamera : List Char
  processor : String
  batteryCapacity : List Char
  screenSize : List Char
  launchedYear : Option ℚ
  priceIndia : List Char

/-- A dataset row after the cleaning stages of `train_and_save_model`:
the eight feature cells and the target cell, each `none` when cleaning
produced the NaN marker. -/
structure CleanRow where
  mobileWeight : Option ℚ
  ram : Option ℚ
  frontCamera : Option ℚ
  backCamera : Option ℚ
  processorSpeed : Option ℚ
  batteryCapacity : Option ℚ
  screenSize : Option ℚ
  launchedYear : Option ℚ
  priceIndia : Option ℚ

/-- The cleaning stages of `train_and_save_model` on one row:
`clean_numeric_column` with the respective unit on the six text fields,
`get_processor_speed` on the processor (total, never a marker), the
year passed through, `clean_price` on the target. -/
def cleanRow (r : RawRow) : CleanRow :=
  { mobileWeight := clean_numeric_column r.mobileWeight "g".toList,
    ram := clean_numeric_column r.ram "GB".toList,
    frontCamera := clean_numeric_column r.frontCamera "MP".toList,
    backCamera := clean_numeric_column r.backCamera "MP".toList,
    processorSpeed := some (getProcessorSpeedTraining r.processor),
    batteryCapacity := clean_numeric_column r.batteryCapacity "mAh".toList,
    screenSize := clean_numeric_column r.screenSize "inches".toList,
    launchedYear := r.launchedYear,
    priceIndia := clean_price r.priceIndia }

/-- `df.dropna(subset=features + ["Launched Price (India)"])` keeps a
row exactly when none of the eight feature cells nor the target cell is
the NaN marker. -/
def rowComplete (r : CleanRow) : Bool :=
  r.mobileWeight.isSome && r.ram.isSome && r.frontCamera.isSome &&
  r.backCamera.isSome && r.processorSpeed.isSome && r.batteryCapacity.isSome &&
  r.screenSize.isSome && r.launchedYear.isSome && r.priceIndia.isSome

/-- The ordered feature vector `X` of one kept row (the fixed schema
`[Mobile Weight, RAM, Front Camera, Back Camera, Processor_Speed,
Battery Capacity, Screen Size, Launched Year]`). -/
def featuresOf (r : CleanRow) : List ℚ :=
  [r.mobileWeight.getD 0, r.ram.getD 0, r.frontCamera.getD 0, r.backCamera.getD 0,
   r.processorSpeed.getD 0, r.batteryCapacity.getD 0, r.screenSize.getD 0,
   r.launchedYear.getD 0]

/-- The target `y` of one kept row. -/
def targetOf (r : CleanRow) : ℚ :=
  r.priceIndia.getD 0

/-- The state of a fitted `RandomForestRegressor`: its hyperparameters
and the data it was fitted on (the ensemble construction itself is
internal to `sklearn`; its `predict` is a parameter below). -/
structure FittedModel where
  nEstimators : ℕ
  randomState : ℕ
  trainX : List (List ℚ)
  trainY : List ℚ
deriving DecidableEq

/-- Everything `train_and_save_model` produces: the kept rows, the
fitted scaler, the scaled matrix, the fitted model, and the two
persisted artifacts. -/
structure TrainOutput where
  kept : List CleanRow
  scaler : ScalerState
  scaledX : List (List ℚ)
  model : FittedModel
  savedModel : FittedModel
  savedScaler : ScalerState

/-- `training_pipeline.train_and_save_model`, from the cleaned rows on:
drop incomplete rows, `fit_transform` the feature matrix, fit the
regressor with `n_estimators=100, random_state=42` on the scaled
features and the target, and persist both artifacts. -/
def train_and_save_model (rows : List RawRow) : TrainOutput :=
  let cleaned := rows.map cleanRow
  let kept := cleaned.filter rowComplete
  let X := kept.map featuresOf
  let y := kept.map targetOf
  let scaler := scalerFit X
  let scaledX := scalerFitTransform X
  let model : FittedModel :=
    { nEstimators := 100, randomState := 42, trainX := scaledX, trainY := y }
  { kept := kept, scaler := scaler, scaledX := scaledX, model := model,
    savedModel := model, savedScaler := scaler }

/-- The loaded-artifact fields of a `ModelPredictor`. -/
structure PredictorState where
  model : Option FittedModel
  scaler : Option ScalerState

/-- The exceptions `make_prediction` can raise (each re-raised wrapped
in `CustomException("Error in making prediction: ...")` by its outer
handler). -/
inductive PredException where
  | notLoaded : PredException
  | invalidNumeric : PredException
deriving DecidableEq

/-- Message of the inner exception: the `CustomException` text for the
missing-artifact check, and (modelled) numpy's conversion error for a
cell that does not parse as a float. -/
def excMessage : PredException → String
  | .notLoaded => "Model or scaler not loaded. Please ensure both files exist."
  | .invalidNumeric => "could not convert string to float"

/-- The outer `except` of `make_prediction`:
`CustomException(f"Error in making prediction: {str(e)}")`. -/
def wrapPredictionError (e : PredException) : String :=
  "Error in making prediction: " ++ excMessage e

/-- `ModelPredictor.make_prediction`, parameterized by the regressor's
`predict` (internal to `sklearn`): check the artifacts, convert the
input to a string array, resolve and store the processor speed, convert
the cells to floats, scale, and predict. -/
def make_prediction (predictF : FittedModel → List ℚ → ℚ)
    (st : PredictorState) (input : List PyVal) : Except PredException ℚ :=
  match st.model, st.scaler with
  | some m, some sc =>
      match ((inputStrings input).set 4 (storedSpeed input)).mapM parseFloat with
      | some xs => .ok (predictF m (scalerTransformRow sc xs))
      | none => .error .invalidNumeric
  | _, _ => .error .notLoaded

/-- `ModelPredictor.__init__`: attempt both artifact loads; any raised
exception is caught and both fields are set to `None` (a failed model
load skips the scaler load; a failed scaler load overwrites the already
loaded model), so construction always returns normally. -/
def modelPredictorInit (loadModel : Except String FittedModel)
    (loadScaler : Except String ScalerState) : PredictorState :=
  match loadModel, loadScaler with
  | .ok m, .ok s => ⟨some m, some s⟩
  | _, _ => ⟨none, none⟩

/-- Module initialization of `application.py`: `predictor =
ModelPredictor()` inside `try`, `MODEL_LOADED = True` on normal return
and `False` if construction raised. `modelPredictorInit` is a total
function (its `__init__` catches internally), so the `try` observes a
normal return. -/
def appInit (loadModel : Except String FittedModel)
    (loadScaler : Except String ScalerState) : Bool × PredictorState :=
  match (Except.ok (modelPredictorInit loadModel loadScaler) : Except String PredictorState) with
  | .ok p => (true, p)
  | .error _ => (false, ⟨none, none⟩)

/-- The eight required input fields of the `/predict` route. -/
def requiredFeatures : List String :=
  ["Mobile Weight", "RAM", "Front Camera", "Back Camera", "Processor",
   "Battery Capacity", "Screen Size", "Launched Year"]

/-- Key lookup in the request's JSON object. -/
def lookupField (data : List (String × PyVal)) (k : String) : Option PyVal :=
  (data.find? (fun p => p.1 = k)).map (fun p => p.2)

/-- Responses of the `/predict` route. -/
inductive HttpResponse where
  | ok (prediction : ℚ) : HttpResponse
  | badRequest (msg : String) : HttpResponse
  | serviceUnavailable (msg : String) : HttpResponse
  | internalError (msg : String) : HttpResponse
deriving DecidableEq

/-- The `/predict` handler of `application.py`: the 503 guard on
`MODEL_LOADED`, the required-field check answered with a fixed 400
message, then `make_prediction` with the fields in schema order; an
exception from it is caught and returned as a 500 with its message. -/
def predictHandler (predictF : FittedModel → List ℚ → ℚ) (modelLoaded : Bool)
    (st : PredictorState) (data : List (String × PyVal)) : HttpResponse :=
  if ¬ modelLoaded then
    .serviceUnavailable "Model not loaded. Please ensure model file exists in artifacts/best_model.pkl"
  else if ¬ (requiredFeatures.all fun f => (lookupField data f).isSome) then
    .badRequest "Missing required features in input data."
  else
    match make_prediction predictF st (requiredFeatures.map fun f => (lookupField data f).getD (.int 0)) with
    | .ok q => .ok q
    | .error e => .internalError (wrapPredictionError e)

/-- Request used below: the seven required fields other than `RAM`. -/
def requestMissingRam : List (String × PyVal) :=
  [("Mobile Weight", .int 180), ("Front Camera", .int 16), ("Back Camera", .int 48),
   ("Processor", .str "A17 Bionic".toList), ("Battery Capacity", .int 4500),
   ("Screen Size", .float (mkRat 65 10)), ("Launched Year", .int 2023)]

/-- Request used below: all eight required fields, with the end-to-end
scenario's values. -/
def sampleRequest : List (String × PyVal) :=
  [("Mobile Weight", .int 180), ("RAM", .int 8), ("Front Camera", .int 16),
   ("Back Camera", .int 48), ("Processor", .str "A17 Bionic".toList),
   ("Battery Capacity", .int 4500), ("Screen Size", .float (mkRat 65 10)),
   ("Launched Year", .int 2023)]

/-- Input list used below: the end-to-end scenario's eight values in
schema order. -/
def c10Input : List PyVal :=
  [.int 180, .int 8, .int 16, .int 48, .str "A17 Bionic".toList, .int 4500,
   .float (mkRat 13 2), .int 2023]

/-! ## Helper lemmas -/

theorem natOfDigits_cast (ds : List Char) (n : ℕ) (h : natOfDigits ds = n) :
    (natOfDigits ds : ℚ) = n := by rw [h]

theorem resolveGo_eq_firstMatch (table : List (String × ℚ)) (s : List Char) :
    resolveGo table s =
      (match table.find? (fun kv => containsSub (pyLower kv.1.toList) s) with
       | some kv => kv.2
       | none => 2.0) := by
  induction table with
  | nil => rfl
  | cons kv rest ih =>
      simp only [resolveGo, List.find?_cons]
      by_cases h : containsSub (pyLower kv.1.data) s = true
      · simp [h]
      · simp [h, ih]

theorem scalerFitTransform_eq (X : List (List ℚ)) :
    scalerFitTransform X = scalerTransform (scalerFit X) X := rfl

theorem make_prediction_error_when_absent (predictF : FittedModel → List ℚ → ℚ)
    (st : PredictorState) (input : List PyVal)
    (h : st.model = none ∨ st.scaler = none) :
    make_prediction predictF st input = .error .notLoaded := by
  obtain ⟨m, s⟩ := st
  rcases h with h | h
  · simp only at h
    subst h
    cases s <;> rfl
  · simp only at h
    subst h
    cases m <;> rfl

theorem handler_error_when_absent (predictF : FittedModel → List ℚ → ℚ)
    (st : PredictorState) (data : List (String × PyVal))
    (h : st.model = none ∨ st.scaler = none)
    (hfields : (requiredFeatures.all fun f => (lookupField data f).isSome) = true) :
    predictHandler predictF true st data =
      .internalError "Error in making prediction: Model or scaler not loaded. Please ensure both files exist." := by
  have hmp := make_prediction_error_when_absent predictF st
    (requiredFeatures.map fun f => (lookupField data f).getD (.int 0)) h
  simp [predictHandler, hfields, hmp, wrapPredictionError, excMessage]

theorem list_le_foldr_max (l : List ℕ) (x : ℕ) (hx : x ∈ l) : x ≤ l.foldr max 0 := by
  induction l with
  | nil => cases hx
  | cons a t ih =>
      rcases List.mem_cons.mp hx with h | h
      · subst h
        exact le_max_left _ _
      · exact le_trans (ih h) (le_max_right _ _)

theorem containsSub_length_le (n h : List Char) (hc : containsSub n h = true) :
    n.length ≤ h.length := by
  simp only [containsSub, List.any_eq_true, List.mem_range] at hc
  obtain ⟨i, hi, hpre⟩ := hc
  have hp := (List.isPrefixOf_iff_prefix.mp hpre).length_le
  simp only [List.length_drop] at hp
  omega

theorem resolveGo_cases (table : List (String × ℚ)) (s : List Char) :
    resolveGo table s = 2.0 ∨
      ∃ kv, kv ∈ table ∧ containsSub (pyLower kv.1.toList) s = true ∧
        resolveGo table s = kv.2 := by
  induction table with
  | nil => exact Or.inl rfl
  | cons kv rest ih =>
      obtain ⟨k, v⟩ := kv
      by_cases h : containsSub (pyLower k.toList) s = true
      · refine Or.inr ⟨(k, v), List.mem_cons_self _ _, h, ?_⟩
        show (if containsSub (pyLower k.toList) s then v else resolveGo rest s) = v
        rw [if_pos h]
      · have hfold : resolveGo ((k, v) :: rest) s = resolveGo rest s := by
          show (if containsSub (pyLower k.toList) s then v else resolveGo rest s) = _
          rw [if_neg h]
        rcases ih with h2 | ⟨kv', hmem, hsub, hval⟩
        · exact Or.inl (hfold.trans h2)
        · exact Or.inr ⟨kv', List.mem_cons_of_mem _ hmem, hsub, hfold.trans hval⟩

theorem processorSpeeds_kernel_eq :
    processorSpeedsPrediction = processorSpeedsKernel := by
  norm_num [processorSpeedsPrediction, processorSpeedsKernel, mkRat]

theorem table_keys_long :
    ∀ kv ∈ processorSpeedsPrediction, 7 ≤ kv.1.toList.length := by decide

theorem kernel_qRepr_short :
    ∀ kv ∈ processorSpeedsKernel, (qRepr kv.2).length ≤ 4 := by decide

theorem kernel_qRepr_parses :
    ∀ kv ∈ processorSpeedsKernel, parseFloat (qRepr kv.2) = some kv.2 := by decide

theorem matched_key_bounds_width (input : List PyVal) (hlen : input.length = 8)
    (kv : String × ℚ) (hmem : kv ∈ processorSpeedsPrediction)
    (hsub : containsSub (pyLower kv.1.toList)
      (pyLower ((inputStrings input).getD 4 [])) = true) :
    7 ≤ inputWidth input := by
  have hlt : 4 < (inputStrings input).length := by
    simp [inputStrings, hlen]
  have hmem4 : (inputStrings input).getD 4 [] ∈ inputStrings input := by
    rw [List.getD_eq_getElem _ _ hlt]
    exact List.getElem_mem hlt
  have hmlen : ((inputStrings input).getD 4 []).length ∈
      ((inputStrings input).map List.length) :=
    List.mem_map_of_mem _ hmem4
  have hwidth : ((inputStrings input).getD 4 []).length ≤ inputWidth input :=
    list_le_foldr_max _ _ hmlen
  have hsubl := containsSub_length_le _ _ hsub
  have h7 := table_keys_long kv hmem
  simp only [pyLower, List.length_map] at hsubl
  omega

/-! ## Claim theorems -/

/-- **C1.** The processor-name → GHz resolver used by the training
pipeline and the one used by the prediction pipeline are extensionally
equal: on every input string they return the same GHz value (the two
tables have the same entries in the same order and the same `2.0`
default). -/
theorem training_and_prediction_resolvers_agree (s : String) :
    getProcessorSpeedTraining s = getProcessorSpeedPrediction s := rfl

/-- **C2.** The resolver is a total function on all strings that returns
the value of the *first* table entry (in definition order) whose key is a
case-insensitive substring of the input, and exactly `2.0` when no entry
matches; in particular the empty string and unrecognized names resolve
to `2.0`. -/
theorem resolver_first_match_default (s : String) :
    getProcessorSpeedPrediction s = resolveSpecFirstMatch processorSpeedsPrediction s ∧
    getProcessorSpeedPrediction "" = 2.0 ∧
    getProcessorSpeedPrediction "Unknown Chip X" = 2.0 ∧
    getProcessorSpeedPrediction "Apple A17 Bionic Chip" = 3.78 := by
  refine ⟨?_, ?_, ?_, ?_⟩
  · unfold getProcessorSpeedPrediction resolveSpecFirstMatch
    exact resolveGo_eq_firstMatch _ _
  · simp +decide [getProcessorSpeedPrediction, processorSpeedsPrediction, resolveGo]
  · simp +decide [getProcessorSpeedPrediction, processorSpeedsPrediction, resolveGo]
  · simp +decide [getProcessorSpeedPrediction, processorSpeedsPrediction, resolveGo]

/-- **C7.** `clean_numeric_column` removes the unit token (with or
without a preceding space) and all thousands-separator commas and parses
the remainder as a number; in particular `"180 g"` with unit `g` cleans
to `180.0`; any cell whose remainder is not a numeral yields the NaN
marker `none` (a value, not a thrown error). -/
theorem clean_numeric_strips_unit_and_commas :
    clean_numeric_column "180 g".toList "g".toList = some 180 ∧
    clean_numeric_column "180g".toList "g".toList = some 180 ∧
    clean_numeric_column "1,200 mAh".toList "mAh".toList = some 1200 ∧
    clean_numeric_column "6.5 inches".toList "inches".toList = some (6.5 : ℚ) ∧
    clean_numeric_column "N/A".toList "g".toList = none ∧
    (∀ s unit, clean_numeric_column s unit = none ∨
      ∃ q, clean_numeric_column s unit = some q) := by
  refine ⟨?_, ?_, ?_, ?_, ?_, ?_⟩
  · rw [show clean_numeric_column "180 g".toList "g".toList = some (mkRat 180 1) from by decide]
    norm_num [mkRat]
  · rw [show clean_numeric_column "180g".toList "g".toList = some (mkRat 180 1) from by decide]
    norm_num [mkRat]
  · rw [show clean_numeric_column "1,200 mAh".toList "mAh".toList = some (mkRat 1200 1) from by decide]
    norm_num [mkRat]
  · rw [show clean_numeric_column "6.5 inches".toList "inches".toList = some (mkRat 65 10) from by decide]
    norm_num [mkRat]
  · decide
  · intro s unit
    cases h : clean_numeric_column s unit with
    | none => exact Or.inl rfl
    | some q => exact Or.inr ⟨q, rfl⟩

/-- **C3** (evaluation at the failing input). `clean_price` does *not*
strip the real rupee sign U+20B9: on `"₹1,20,000"` the commas are
removed but the rupee sign survives, coercion fails, and the cell
becomes the NaN marker `none` instead of `120000.0`. The mojibake
rendering `"â‚¹1,20,000"` of the same bytes, and an `INR` prefix, do
clean to `120000.0`. -/
theorem clean_price_real_rupee_yields_nan :
    clean_price "₹1,20,000".toList = none ∧
    clean_price "â‚¹1,20,000".toList = some 120000 ∧
    clean_price "INR 120000".toList = some 120000 := by
  refine ⟨?_, ?_, ?_⟩
  · decide
  · rw [show clean_price "â‚¹1,20,000".toList = some (mkRat 120000 1) from by decide]
    norm_num [mkRat]
  · rw [show clean_price "INR 120000".toList = some (mkRat 120000 1) from by decide]
    norm_num [mkRat]

/-- **C9.** Round-trip law of the scaler: the training-time scaled
matrix `scaler.fit_transform(X)` equals what applying the scaler fitted
on `X` back to `X` itself produces — transform-after-fit and
`fit_transform` agree on the fitting matrix. -/
theorem scaler_roundtrip_on_fitting_matrix (X : List (List ℚ)) :
    scalerFitTransform X = scalerTransform (scalerFit X) X := rfl

/-- **C8.** After cleaning, the training procedure keeps exactly the
rows with no NaN marker in the eight features or the target, fits the
scaler on the remaining feature matrix, transforms that matrix with the
fitted scaler, fits the regressor with 100 base learners and random
seed 42 on the scaled features and target, and persists both the scaler
and the model. -/
theorem training_procedure_stages (rows : List RawRow) :
    (∀ r, r ∈ (train_and_save_model rows).kept ↔
      r ∈ rows.map cleanRow ∧ rowComplete r = true) ∧
    (train_and_save_model rows).scaler =
      scalerFit ((train_and_save_model rows).kept.map featuresOf) ∧
    (train_and_save_model rows).scaledX =
      scalerTransform (train_and_save_model rows).scaler
        ((train_and_save_model rows).kept.map featuresOf) ∧
    (train_and_save_model rows).model.nEstimators = 100 ∧
    (train_and_save_model rows).model.randomState = 42 ∧
    (train_and_save_model rows).model.trainX = (train_and_save_model rows).scaledX ∧
    (train_and_save_model rows).model.trainY =
      (train_and_save_model rows).kept.map targetOf ∧
    (train_and_save_model rows).savedScaler = (train_and_save_model rows).scaler ∧
    (train_and_save_model rows).savedModel = (train_and_save_model rows).model := by
  refine ⟨?_, rfl, ?_, rfl, rfl, rfl, rfl, rfl, rfl⟩
  · intro r
    exact List.mem_filter
  · exact scalerFitTransform_eq _

/-- **C4** (counterexample). On a request whose record lacks the `RAM`
field, the handler does reject with the fixed 400 validation message,
but that message does not name the missing field: `"RAM"` does not occur
in it. -/
theorem missing_field_message_does_not_name_field :
    predictHandler (fun _ _ => 0) true ⟨none, none⟩ requestMissingRam =
      HttpResponse.badRequest "Missing required features in input data." ∧
    containsSub "RAM".toList "Missing required features in input data.".toList = false := by
  exact ⟨by decide, by decide⟩

/-- **C4** (amended). A prediction request whose record is missing one
or more of the eight required fields is rejected with the fixed
validation message `"Missing required features in input data."` —
before any vector building, scaling, or model application (the response
is the same for every predictor state and every regressor), but without
naming the missing field(s). -/
theorem missing_field_rejected_before_prediction
    (predictF : FittedModel → List ℚ → ℚ) (st : PredictorState)
    (data : List (String × PyVal))
    (hmiss : ∃ f ∈ requiredFeatures, lookupField data f = none) :
    predictHandler predictF true st data =
      .badRequest "Missing required features in input data." := by
  obtain ⟨f, hf, hnone⟩ := hmiss
  have hall : (requiredFeatures.all fun g => (lookupField data g).isSome) = false := by
    rw [List.all_eq_false]
    exact ⟨f, hf, by simp [hnone]⟩
  simp [predictHandler, hall]

/-- **C4** (witness for the amended claim, at the `RAM`-less request). -/
theorem missing_field_rejected_witness :
    predictHandler (fun _ _ => 0) true ⟨none, none⟩ requestMissingRam =
      .badRequest "Missing required features in input data." :=
  missing_field_rejected_before_prediction _ _ _ ⟨"RAM", by decide, by decide⟩

/-- **C5.** With either artifact absent (`model` or `scaler` is `None`
after a failed load), every call to `make_prediction` fails with the
model-not-loaded error — not another error and not a fabricated number —
and the service stays up in degraded mode: a well-formed request is
answered with the model-not-loaded message rather than a prediction or a
crash. -/
theorem absent_artifact_rejects_predictions (predictF : FittedModel → List ℚ → ℚ)
    (st : PredictorState) (data : List (String × PyVal))
    (habsent : st.model = none ∨ st.scaler = none) :
    (∀ input, make_prediction predictF st input = .error .notLoaded) ∧
    ((requiredFeatures.all fun f => (lookupField data f).isSome) = true →
      predictHandler predictF true st data =
        .internalError "Error in making prediction: Model or scaler not loaded. Please ensure both files exist.") := by
  exact ⟨fun input => make_prediction_error_when_absent predictF st input habsent,
    fun hfields => handler_error_when_absent predictF st data habsent hfields⟩

/-- **C5** (witness, at an empty predictor state and the sample
request). -/
theorem absent_artifact_rejects_predictions_witness :
    make_prediction (fun _ _ => 0) ⟨none, none⟩ [] = .error .notLoaded ∧
    predictHandler (fun _ _ => 0) true ⟨none, none⟩ sampleRequest =
      .internalError "Error in making prediction: Model or scaler not loaded. Please ensure both files exist." :=
  ⟨(absent_artifact_rejects_predictions (fun _ _ => 0) ⟨none, none⟩ sampleRequest
      (Or.inl rfl)).1 [],
   (absent_artifact_rejects_predictions (fun _ _ => 0) ⟨none, none⟩ sampleRequest
      (Or.inl rfl)).2 (by decide)⟩

/-- **C6.** `ModelPredictor.__init__` catches every loading exception
and records the failure as `None` fields, so module initialization
always sets `MODEL_LOADED = True`; hence the handler's 503
"Model not loaded" branch is unreachable, and a missing artifact instead
surfaces from `make_prediction` as the wrapped exception on the 500
path. -/
theorem init_catches_and_503_unreachable (lm : Except String FittedModel)
    (ls : Except String ScalerState) (predictF : FittedModel → List ℚ → ℚ)
    (data : List (String × PyVal)) :
    (appInit lm ls).1 = true ∧
    (∀ m, predictHandler predictF (appInit lm ls).1 (appInit lm ls).2 data ≠
      .serviceUnavailable m) ∧
    ((lm.isOk = false ∨ ls.isOk = false) →
      (requiredFeatures.all fun f => (lookupField data f).isSome) = true →
      predictHandler predictF (appInit lm ls).1 (appInit lm ls).2 data =
        .internalError "Error in making prediction: Model or scaler not loaded. Please ensure both files exist.") := by
  refine ⟨rfl, ?_, ?_⟩
  · intro m
    show predictHandler predictF true (appInit lm ls).2 data ≠ _
    by_cases hfld : (requiredFeatures.all fun f => (lookupField data f).isSome) = true
    · simp only [predictHandler, hfld]
      cases hmp : make_prediction predictF (appInit lm ls).2
          (requiredFeatures.map fun f => (lookupField data f).getD (.int 0)) with
      | ok q => simp [hmp]
      | error e => simp [hmp]
    · simp [predictHandler, hfld]
  · intro hfail hfields
    have hstate : (appInit lm ls).2 = ⟨none, none⟩ := by
      cases lm with
      | error e => rfl
      | ok m =>
          cases ls with
          | error e => rfl
          | ok s => simp [Except.isOk, Except.toBool] at hfail
    show predictHandler predictF true (appInit lm ls).2 data = _
    rw [hstate]
    exact handler_error_when_absent predictF ⟨none, none⟩ data (Or.inl rfl) hfields

/-- **C6** (witness: failed model load, sample request). -/
theorem init_catches_and_503_unreachable_witness :
    (appInit (.error "file not found") (.error "file not found")).1 = true ∧
    predictHandler (fun _ _ => 0)
      (appInit (.error "file not found") (.error "file not found")).1
      (appInit (.error "file not found") (.error "file not found")).2 sampleRequest =
      .internalError "Error in making prediction: Model or scaler not loaded. Please ensure both files exist." :=
  ⟨(init_catches_and_503_unreachable (.error "file not found") (.error "file not found")
      (fun _ _ => 0) sampleRequest).1,
   (init_catches_and_503_unreachable (.error "file not found") (.error "file not found")
      (fun _ _ => 0) sampleRequest).2.2 (Or.inl rfl) (by decide)⟩

/-- **C10** (counterexample). The claimed truncation scenario — a
resolved speed of `3.78` stored in a width-3 array, losing its last
digit — cannot occur: resolving `3.78` requires some table key (each at
least 7 characters) to be a substring of the processor field, so the
array's itemsize is at least 7, never 3. -/
theorem width3_truncation_of_378_impossible :
    ¬ ∃ input : List PyVal, input.length = 8 ∧ inputWidth input = 3 ∧
      resolvedSpeed input = 3.78 := by
  rintro ⟨input, hlen, hw, hv⟩
  rcases resolveGo_cases processorSpeedsPrediction
      (pyLower ((inputStrings input).getD 4 [])) with h2 | ⟨kv, hmem, hsub, hval⟩
  · have h378 : (3.78 : ℚ) = 2.0 := by
      rw [← hv]
      exact h2
    norm_num at h378
  · have := matched_key_bounds_width input hlen kv hmem hsub
    omega

/-- **C10** (amended). `make_prediction` does convert the mixed input
list into a fixed-width unicode string array (every numeric field passes
through `str()`), and numpy truncates the stored speed to the itemsize —
but the truncation never alters the value scaled and predicted on: a
table-resolved speed (at most 4 characters) always fits, because any
match forces the processor field, and hence the itemsize, to at least 7
characters; and the default `2.0` truncates at worst to `"2."` or
`"2"`, which still parse back to `2.0`. -/
theorem stored_speed_value_preserved (input : List PyVal)
    (hlen : input.length = 8) (hw : 1 ≤ inputWidth input) :
    parseFloat (storedSpeed input) = some (resolvedSpeed input) := by
  have hgoal : storedSpeed input =
      (qRepr (resolvedSpeed input)).take (inputWidth input) := rfl
  rcases resolveGo_cases processorSpeedsPrediction
      (pyLower ((inputStrings input).getD 4 [])) with h2 | ⟨kv, hmem, hsub, hval⟩
  · have hv : resolvedSpeed input = 2.0 := h2
    have h2m : (2.0 : ℚ) = mkRat 2 1 := by norm_num [mkRat]
    rw [hgoal, hv, h2m]
    have hrepr : qRepr (mkRat 2 1) = ['2', '.', '0'] := by decide
    rw [hrepr]
    rcases Nat.lt_or_ge (inputWidth input) 3 with hlt | hge
    · have hcase : inputWidth input = 1 ∨ inputWidth input = 2 := by omega
      rcases hcase with h | h <;> rw [h] <;> decide
    · rw [List.take_of_length_le (by simpa using hge)]
      decide
  · have hv : resolvedSpeed input = kv.2 := hval
    have hk : kv ∈ processorSpeedsKernel := processorSpeeds_kernel_eq ▸ hmem
    have h7 := matched_key_bounds_width input hlen kv hmem hsub
    have hshort := kernel_qRepr_short kv hk
    rw [hgoal, hv, List.take_of_length_le (by omega)]
    exact kernel_qRepr_parses kv hk

/-- **C10** (witness for the amended claim, at the end-to-end scenario
input, whose processor resolves through the `A17 Bionic` entry). -/
theorem stored_speed_value_preserved_witness :
    c10Input.length = 8 ∧ 1 ≤ inputWidth c10Input ∧
    parseFloat (storedSpeed c10Input) = some (resolvedSpeed c10Input) :=
  ⟨rfl, by decide, stored_speed_value_preserved c10Input rfl (by decide)⟩

end MobilePrice
